import Mathlib

/-!
Shallow embedding of `src/taskflow.rs` from the etaskflow_rs repository.

The Rust code threads a host-defined `State` value through a tree of task
combinators.  Trait objects `&dyn Task<T>` expose only `name()` and
`execute(State) -> Result<State, Error>`, so a child task is embedded as a
record of a name and a total function `T → Except Error T`; `Clone` on the
host state is value-copying in the source (the test impl copies the field),
hence `state.clone()` is the identity on the pure Lean values.  Each
combinator struct is embedded field by field, and each `execute` method is
translated from its Rust body.  The `while` loop of `LoopTask::execute` is
the one genuinely partial piece of code; it is embedded as a fuel-indexed
step function `runLoop` (with a counter of body invocations) together with
the fuel-erased big-step predicate `LoopTask.Execute`.
-/

deriving instance DecidableEq for Except

namespace Etaskflow

/-- The engine's error enum from `taskflow.rs`; the source declares the single
variant `NoResult`. -/
inductive Error where
  | NoResult
deriving DecidableEq

/-- The `State<T>` trait bound: a host state type with a `merge` operation.
The engine never inspects the state, it only threads and (per the trait
contract) merges it. -/
class StateC (T : Type) where
  merge : T → T → T

/-- Model of a `&dyn Task<T>` trait object: all a combinator can see is
`name()` and `execute()`. -/
structure TaskD (T : Type) where
  name : String
  execute : T → Except Error T

/-- Model of a `&dyn Condition<T>` trait object. -/
structure ConditionD (T : Type) where
  name : String
  execute : T → Except Error Bool

/-- Struct `SequenceTask { n, tasks }`. -/
structure SequenceTask (T : Type) [StateC T] where
  n : String
  tasks : List (TaskD T)

/-- The loop body of `SequenceTask::execute`:
`for task in &self.tasks { state = task.execute(state)?; } Ok(state)`. -/
def runSeq {T : Type} (tasks : List (TaskD T)) (s : T) : Except Error T :=
  match tasks with
  | [] => .ok s
  | task :: rest =>
    match task.execute s with
    | .ok s1 => runSeq rest s1
    | .error e => .error e

/-- Method `SequenceTask::execute`. -/
def SequenceTask.execute {T : Type} [StateC T] (t : SequenceTask T) (s : T) :
    Except Error T :=
  runSeq t.tasks s

/-- Method `Task::name` for `SequenceTask`. -/
def SequenceTask.nameOf {T : Type} [StateC T] (t : SequenceTask T) : String :=
  t.n

/-- Method `WithName::with_name` for `SequenceTask`: consumes self and
overwrites the `n` field. -/
def SequenceTask.with_name {T : Type} [StateC T] (t : SequenceTask T)
    (n : String) : SequenceTask T :=
  { t with n := n }

/-- View of a `SequenceTask` through its `Task<T>` trait impl (as a
`&dyn Task<T>` child of another combinator). -/
def SequenceTask.asTask {T : Type} [StateC T] (t : SequenceTask T) : TaskD T :=
  { name := t.n, execute := t.execute }

/-- Constructor `sequence_task`: empty name, given children. -/
def sequence_task {T : Type} [StateC T] (tasks : List (TaskD T)) :
    SequenceTask T :=
  { n := "", tasks := tasks }

/-- Struct `OrTask { n, tasks }`. -/
structure OrTask (T : Type) [StateC T] where
  n : String
  tasks : List (TaskD T)

/-- The loop body of `OrTask::execute`: each child gets `state.clone()` (the
same input value); the first `Ok` is returned; after the loop the whole
combinator returns `Err(Error::NoResult)`. -/
def runOr {T : Type} (tasks : List (TaskD T)) (s : T) : Except Error T :=
  match tasks with
  | [] => .error .NoResult
  | task :: rest =>
    match task.execute s with
    | .ok s1 => .ok s1
    | .error _ => runOr rest s

/-- Method `OrTask::execute`. -/
def OrTask.execute {T : Type} [StateC T] (t : OrTask T) (s : T) :
    Except Error T :=
  runOr t.tasks s

/-- Method `Task::name` for `OrTask`. -/
def OrTask.nameOf {T : Type} [StateC T] (t : OrTask T) : String :=
  t.n

/-- Method `WithName::with_name` for `OrTask`. -/
def OrTask.with_name {T : Type} [StateC T] (t : OrTask T) (n : String) :
    OrTask T :=
  { t with n := n }

/-- Constructor `or_task`. -/
def or_task {T : Type} [StateC T] (tasks : List (TaskD T)) : OrTask T :=
  { n := "", tasks := tasks }

/-- Struct `ConcurrentTask { n, tasks }`. -/
structure ConcurrentTask (T : Type) [StateC T] where
  n : String
  tasks : List (TaskD T)

/-- Method `ConcurrentTask::execute` as written in the source:
`for task in &self.tasks {}` (an empty loop body that never invokes a child)
followed by `Err(Error::NoResult)` — it fails unconditionally. -/
def ConcurrentTask.execute {T : Type} [StateC T] (_t : ConcurrentTask T)
    (_s : T) : Except Error T :=
  .error .NoResult

/-- Method `Task::name` for `ConcurrentTask`. -/
def ConcurrentTask.nameOf {T : Type} [StateC T] (t : ConcurrentTask T) :
    String :=
  t.n

/-- Method `WithName::with_name` for `ConcurrentTask`. -/
def ConcurrentTask.with_name {T : Type} [StateC T] (t : ConcurrentTask T)
    (n : String) : ConcurrentTask T :=
  { t with n := n }

/-- Struct `IfTask { n, condition, then_do, default_do }`. -/
structure IfTask (T : Type) [StateC T] where
  n : String
  condition : ConditionD T
  then_do : TaskD T
  default_do : Option (TaskD T)

/-- Method `IfTask::execute`: evaluate the condition on `state.clone()`,
propagating its error with `?`; on `true` run `then_do`, on `false` run
`default_do` if present, else `Err(Error::NoResult)`. -/
def IfTask.execute {T : Type} [StateC T] (t : IfTask T) (s : T) :
    Except Error T :=
  match t.condition.execute s with
  | .error e => .error e
  | .ok true => t.then_do.execute s
  | .ok false =>
    match t.default_do with
    | some d => d.execute s
    | none => .error .NoResult

/-- Method `Task::name` for `IfTask`. -/
def IfTask.nameOf {T : Type} [StateC T] (t : IfTask T) : String :=
  t.n

/-- Method `WithName::with_name` for `IfTask`. -/
def IfTask.with_name {T : Type} [StateC T] (t : IfTask T) (n : String) :
    IfTask T :=
  { t with n := n }

/-- Method `IfTask::with_default`: set the `default_do` slot. -/
def IfTask.with_default {T : Type} [StateC T] (t : IfTask T) (task : TaskD T) :
    IfTask T :=
  { t with default_do := some task }

/-- Constructor `if_task`: empty name, no default branch. -/
def if_task {T : Type} [StateC T] (condition : ConditionD T)
    (then_do : TaskD T) : IfTask T :=
  { n := "", condition := condition, then_do := then_do, default_do := none }

/-- Struct `LoopTask { n, condition, task }`. -/
structure LoopTask (T : Type) [StateC T] where
  n : String
  condition : ConditionD T
  task : TaskD T

/-- Fuel-indexed unfolding of `LoopTask::execute`'s
`while self.condition.execute(state.clone())? { state = self.task.execute(state)?; }`.
Returns `none` when the fuel runs out before the loop finishes, and otherwise
`some (result, k)` where `k` counts how many times the body was invoked. -/
def runLoop {T : Type} (cond : T → Except Error Bool)
    (body : T → Except Error T) : Nat → T → Option (Except Error T × Nat)
  | 0, _ => none
  | fuel + 1, s =>
    match cond s with
    | .error e => some (.error e, 0)
    | .ok false => some (.ok s, 0)
    | .ok true =>
      match body s with
      | .error e => some (.error e, 1)
      | .ok s1 => (runLoop cond body fuel s1).map (fun p => (p.1, p.2 + 1))

/-- Big-step meaning of `LoopTask::execute`: the Rust `while` loop reaches
result `r` after exactly `k` body invocations.  (The source loop is partial:
an always-true condition never returns, which is why this is the fuel-erased
relation rather than a total function.) -/
def LoopTask.Execute {T : Type} [StateC T] (t : LoopTask T) (s : T)
    (r : Except Error T) (k : Nat) : Prop :=
  ∃ fuel, runLoop t.condition.execute t.task.execute fuel s = some (r, k)

/-- Method `Task::name` for `LoopTask`. -/
def LoopTask.nameOf {T : Type} [StateC T] (t : LoopTask T) : String :=
  t.n

/-- Method `WithName::with_name` for `LoopTask`. -/
def LoopTask.with_name {T : Type} [StateC T] (t : LoopTask T) (n : String) :
    LoopTask T :=
  { t with n := n }

/-- Constructor `loop_task`. -/
def loop_task {T : Type} [StateC T] (condition : ConditionD T)
    (task : TaskD T) : LoopTask T :=
  { n := "", condition := condition, task := task }

/-- Struct `PromiseTask { n, init_task, other_tasks }`. -/
structure PromiseTask (T : Type) [StateC T] where
  n : String
  init_task : TaskD T
  other_tasks : List (Option (TaskD T))

/-- The loop body of `PromiseTask::execute`:
`for task in &self.other_tasks { if task.is_some() { state = task.unwrap().execute(state)?; } }`. -/
def runPromiseSlots {T : Type} (slots : List (Option (TaskD T))) (s : T) :
    Except Error T :=
  match slots with
  | [] => .ok s
  | none :: rest => runPromiseSlots rest s
  | some task :: rest =>
    match task.execute s with
    | .ok s1 => runPromiseSlots rest s1
    | .error e => .error e

/-- Method `PromiseTask::execute` as written in the source: it iterates only
over `other_tasks`; the `init_task` field is never invoked. -/
def PromiseTask.execute {T : Type} [StateC T] (t : PromiseTask T) (s : T) :
    Except Error T :=
  runPromiseSlots t.other_tasks s

/-- Method `Task::name` for `PromiseTask`. -/
def PromiseTask.nameOf {T : Type} [StateC T] (t : PromiseTask T) : String :=
  t.n

/-- Method `WithName::with_name` for `PromiseTask`. -/
def PromiseTask.with_name {T : Type} [StateC T] (t : PromiseTask T)
    (n : String) : PromiseTask T :=
  { t with n := n }

/-- Struct `TaskImpl { n, method }`: a leaf task wrapping a host closure. -/
structure TaskImpl (T : Type) [StateC T] where
  n : String
  method : T → Except Error T

/-- Method `TaskImpl::execute`: `(self.method)(state)` — the closure's result
is returned unchanged. -/
def TaskImpl.execute {T : Type} [StateC T] (t : TaskImpl T) (s : T) :
    Except Error T :=
  t.method s

/-- Method `Task::name` for `TaskImpl`. -/
def TaskImpl.nameOf {T : Type} [StateC T] (t : TaskImpl T) : String :=
  t.n

/-- Constructor `new_task`. -/
def new_task {T : Type} [StateC T] (n : String) (method : T → Except Error T) :
    TaskImpl T :=
  { n := n, method := method }

/-- View of a `TaskImpl` through its `Task<T>` trait impl. -/
def TaskImpl.asTask {T : Type} [StateC T] (t : TaskImpl T) : TaskD T :=
  { name := t.n, execute := t.execute }

/-- The test-module state `TestState { num: i32 }`. -/
structure TestState where
  num : Int
deriving DecidableEq

/-- The test module's `State` impl: `merge(&self, b)` returns
`TestState { num: self.num }`. -/
instance : StateC TestState :=
  { merge := fun a _ => { num := a.num } }

/-- The test closure `|a| Ok(TestState { num: a.num + 1 })` as a leaf task. -/
def plus1 : TaskD TestState :=
  { name := "task1", execute := fun a => .ok { num := a.num + 1 } }

/-- The test closure adding 2. -/
def plus2 : TaskD TestState :=
  { name := "task2", execute := fun a => .ok { num := a.num + 2 } }

/-- The test closure adding 3. -/
def plus3 : TaskD TestState :=
  { name := "task3", execute := fun a => .ok { num := a.num + 3 } }

/-- A follow-up slot task adding 5 (spec example `+5`). -/
def plus5 : TaskD TestState :=
  { name := "plus5", execute := fun a => .ok { num := a.num + 5 } }

/-- The spec example's initializing task `seed_to_0`: sets `num` to 0. -/
def seed_to_0 : TaskD TestState :=
  { name := "seed_to_0", execute := fun _ => .ok { num := 0 } }

/-- A leaf task that always fails (with the only error value the engine
has). -/
def failTask : TaskD TestState :=
  { name := "fail", execute := fun _ => .error .NoResult }

/-- A condition that always yields `true`. -/
def condTrue : ConditionD TestState :=
  { name := "always", execute := fun _ => .ok true }

/-- A condition that always yields `false`. -/
def condFalse : ConditionD TestState :=
  { name := "never", execute := fun _ => .ok false }

/-- The spec example's Promise: `promise(seed_to_0, [None, +5, None, +2])`. -/
def promiseEx : PromiseTask TestState :=
  { n := "", init_task := seed_to_0,
    other_tasks := [none, some plus5, none, some plus2] }

/-- The spec example's loop condition `count < 3` on the numeric field. -/
def condLt3 : ConditionD TestState :=
  { name := "lt3", execute := fun s => .ok (decide (s.num < 3)) }

/-- The spec example's loop body `increment count`. -/
def incrTask : TaskD TestState :=
  { name := "incr", execute := fun s => .ok { num := s.num + 1 } }

/-- The spec example's loop: condition `count < 3`, body `increment count`. -/
def loopEx : LoopTask TestState :=
  loop_task condLt3 incrTask

/-- More fuel never changes an already-determined loop outcome: `runLoop` is
monotone in its fuel argument. -/
theorem runLoop_mono {T : Type} (cond : T → Except Error Bool)
    (body : T → Except Error T) :
    ∀ (fuel fuel' : Nat) (s : T) (p : Except Error T × Nat),
      runLoop cond body fuel s = some p → fuel ≤ fuel' →
      runLoop cond body fuel' s = some p := by
  intro fuel
  induction fuel with
  | zero =>
    intro fuel' s p h _
    simp [runLoop] at h
  | succ m ih =>
    intro fuel' s p h hle
    obtain ⟨m', rfl⟩ : ∃ m', fuel' = m' + 1 := ⟨fuel' - 1, by omega⟩
    have hmm : m ≤ m' := by omega
    simp only [runLoop] at h ⊢
    cases hc : cond s with
    | error e =>
      simp only [hc] at h ⊢
      exact h
    | ok b =>
      cases b with
      | false =>
        simp only [hc] at h ⊢
        exact h
      | true =>
        simp only [hc] at h ⊢
        cases hb : body s with
        | error e =>
          simp only [hb] at h ⊢
          exact h
        | ok s1 =>
          simp only [hb] at h ⊢
          obtain ⟨q, hq, hpq⟩ := Option.map_eq_some'.mp h
          rw [ih m' s1 q hq hmm]
          simp [hpq]

/-- The loop outcome (result and body-invocation count) does not depend on
which sufficient fuel was used. -/
theorem runLoop_det {T : Type} (cond : T → Except Error Bool)
    (body : T → Except Error T) (f1 f2 : Nat) (s : T)
    (p q : Except Error T × Nat) (h1 : runLoop cond body f1 s = some p)
    (h2 : runLoop cond body f2 s = some q) : p = q := by
  have h1' := runLoop_mono cond body f1 (max f1 f2) s p h1 (Nat.le_max_left _ _)
  have h2' := runLoop_mono cond body f2 (max f1 f2) s q h2 (Nat.le_max_right _ _)
  rw [h1'] at h2'
  exact (Option.some.injEq _ _).mp h2'

/-- Claim C1: the claim states that a Concurrent combinator whose children
all succeed merges their results in declaration order, and returns the
unmodified input state when the child list is empty.  Evaluating the source
method shows otherwise: `ConcurrentTask::execute` is a stub whose loop body
never invokes a child, so it returns `Err(NoResult)` unconditionally — for
the empty child list (where the claim demands `Ok` of the input) and for an
all-succeeding child list alike. -/
theorem c1_concurrent_always_fails :
    ConcurrentTask.execute { n := "", tasks := ([] : List (TaskD TestState)) }
      { num := 5 } = .error .NoResult ∧
    ConcurrentTask.execute { n := "", tasks := [plus1, plus2] } { num := 5 } =
      .error .NoResult ∧
    (Except.error Error.NoResult : Except Error TestState) ≠ .ok { num := 5 } :=
  ⟨rfl, rfl, by decide⟩

/-- Claim C2: the claim states that a Promise first runs its initializing
task and that `promise(seed_to_0, [None, +5, None, +2])` yields `num = 7` on
any input.  Evaluating the source method on input `num = 100` shows that
`PromiseTask::execute` never invokes `init_task`: it only threads the
non-empty follow-up slots, yielding `num = 107`, not `num = 7`. -/
theorem c2_promise_ignores_init :
    promiseEx.execute { num := 100 } = .ok { num := 107 } ∧
    (Except.ok { num := 107 } : Except Error TestState) ≠ .ok { num := 7 } :=
  ⟨rfl, by decide⟩

/-- Claim C3, counterexample to the claim as stated: the claim asserts the
`Error` type has exactly two kinds (`NoResult` and `TaskFailed`), hence two
distinct error values would exist; but the source enum has the single
variant `NoResult`, so no two distinct `Error` values exist at all. -/
theorem c3_error_two_kinds_false : ¬ ∃ e1 e2 : Error, e1 ≠ e2 := by
  rintro ⟨e1, e2, h⟩
  cases e1
  cases e2
  exact h rfl

/-- Claim C3, amended: the engine's `Error` type has exactly one kind,
`NoResult`, and a leaf task's closure result — failure included — is
propagated unchanged by `TaskImpl::execute` (there is no `TaskFailed`
wrapping carrying a task name or cause). -/
theorem c3_error_single_kind_propagation :
    (∀ e : Error, e = Error.NoResult) ∧
    (∀ (T : Type) [StateC T] (t : TaskImpl T) (s : T),
      t.execute s = t.method s) := by
  constructor
  · intro e
    cases e
    rfl
  · intro T inst t s
    rfl

/-- Claim C4: a Sequence runs its children strictly in list order, each
child receiving the state produced by the previous one (threading); on the
first child failure it stops and returns that error unchanged, with no
partial state; and `sequence([+1, +2, +3])` on `num = 100` yields
`num = 106`. -/
theorem c4_sequence_order_failfast :
    (∀ (T : Type) [StateC T] (t : TaskD T) (ts : List (TaskD T)) (s s1 : T),
      t.execute s = .ok s1 →
      (sequence_task (t :: ts)).execute s = (sequence_task ts).execute s1) ∧
    (∀ (T : Type) [StateC T] (t : TaskD T) (ts : List (TaskD T)) (s : T)
      (e : Error), t.execute s = .error e →
      (sequence_task (t :: ts)).execute s = .error e) ∧
    (sequence_task [plus1, plus2, plus3]).execute { num := 100 } =
      .ok { num := 106 } := by
  refine ⟨?_, ?_, rfl⟩
  · intro T inst t ts s s1 h
    simp [sequence_task, SequenceTask.execute, runSeq, h]
  · intro T inst t ts s e h
    simp [sequence_task, SequenceTask.execute, runSeq, h]

/-- Claim C4 witness: the threading clause applied at the leaf `plus1`,
child list `[plus2, plus3]` and input `num = 100`. -/
theorem c4_sequence_witness :
    (sequence_task [plus1, plus2, plus3]).execute { num := 100 } =
      (sequence_task [plus2, plus3]).execute { num := 101 } :=
  c4_sequence_order_failfast.1 TestState plus1 [plus2, plus3] { num := 100 }
    { num := 101 } rfl

/-- Claim C5: an Or combinator tries its children strictly in order, each on
the same input state (an independent copy, never a previous child's output);
the first success short-circuits; if every child fails the result is
`NoResult`; and the spec's two three-child examples hold. -/
theorem c5_or_first_success :
    (∀ (T : Type) [StateC T] (t : TaskD T) (ts : List (TaskD T)) (s s1 : T),
      t.execute s = .ok s1 → (or_task (t :: ts)).execute s = .ok s1) ∧
    (∀ (T : Type) [StateC T] (t : TaskD T) (ts : List (TaskD T)) (s : T)
      (e : Error), t.execute s = .error e →
      (or_task (t :: ts)).execute s = (or_task ts).execute s) ∧
    (∀ (T : Type) [StateC T] (ts : List (TaskD T)) (s : T),
      (∀ t ∈ ts, ∃ e, t.execute s = .error e) →
      (or_task ts).execute s = .error .NoResult) ∧
    (∀ (T : Type) [StateC T] (f1 f2 okt : TaskD T) (s : T) (e1 e2 : Error),
      f1.execute s = .error e1 → f2.execute s = .error e2 →
      (or_task [f1, f2, okt]).execute s = okt.execute s) ∧
    (or_task [failTask, failTask, failTask]).execute { num := 0 } =
      .error .NoResult := by
  refine ⟨?_, ?_, ?_, ?_, rfl⟩
  · intro T inst t ts s s1 h
    simp [or_task, OrTask.execute, runOr, h]
  · intro T inst t ts s e h
    simp [or_task, OrTask.execute, runOr, h]
  · intro T inst ts s
    induction ts with
    | nil => intro _; rfl
    | cons t rest ih =>
      intro hall
      obtain ⟨e, he⟩ := hall t (by simp)
      have hrest : ∀ u ∈ rest, ∃ e1, u.execute s = .error e1 :=
        fun u hu => hall u (by simp [hu])
      simp [or_task, OrTask.execute, runOr, he]
      exact ih hrest
  · intro T inst f1 f2 okt s e1 e2 h1 h2
    simp [or_task, OrTask.execute, runOr, h1, h2]
    cases ho : okt.execute s with
    | ok s1 => simp [ho]
    | error e =>
      cases e
      simp [ho]

/-- Claim C5 witness: the short-circuit clause applied at `plus1` with the
remaining children `[plus2]` and input `num = 0`. -/
theorem c5_or_witness :
    (or_task [plus1, plus2]).execute { num := 0 } = .ok { num := 1 } :=
  c5_or_first_success.1 TestState plus1 [plus2] { num := 0 } { num := 1 } rfl

/-- Claim C6: an If combinator evaluates its Condition on (a copy of) the
input state and propagates the Condition's failure as-is; on `true` it
returns the then-child's result on the input state; on `false` with a
supplied default it returns the default child's result; on `false` with no
default (as built by `if_task`) it fails with `NoResult`. -/
theorem c6_if_branching :
    (∀ (T : Type) [StateC T] (t : IfTask T) (s : T) (e : Error),
      t.condition.execute s = .error e → t.execute s = .error e) ∧
    (∀ (T : Type) [StateC T] (t : IfTask T) (s : T),
      t.condition.execute s = .ok true →
      t.execute s = t.then_do.execute s) ∧
    (∀ (T : Type) [StateC T] (t : IfTask T) (d : TaskD T) (s : T),
      t.condition.execute s = .ok false → t.default_do = some d →
      t.execute s = d.execute s) ∧
    (∀ (T : Type) [StateC T] (c : ConditionD T) (th : TaskD T) (s : T),
      c.execute s = .ok false →
      (if_task c th).execute s = .error .NoResult) := by
  refine ⟨?_, ?_, ?_, ?_⟩
  · intro T inst t s e h
    simp [IfTask.execute, h]
  · intro T inst t s h
    simp [IfTask.execute, h]
  · intro T inst t d s h hd
    simp [IfTask.execute, h, hd]
  · intro T inst c th s h
    simp [if_task, IfTask.execute, h]

/-- Claim C6 witness: the true-branch clause applied at the concrete If task
`if_task condTrue plus5` and input `num = 0`. -/
theorem c6_if_witness :
    (if_task condTrue plus5).execute { num := 0 } =
      plus5.execute { num := 0 } :=
  c6_if_branching.2.1 TestState (if_task condTrue plus5) { num := 0 } rfl

/-- Claim C7: a Loop repeatedly evaluates its Condition on the current
state: on `false` it returns `Ok` of the current state with zero body runs;
a Condition failure aborts with that error; on `true` it runs the body,
propagating a body failure, and otherwise continues from the body's result
with one more body run; the outcome (result and body-run count) is unique;
and the spec example (condition `count < 3`, body `increment`, start 0)
runs the body exactly 3 times and returns `count = 3`. -/
theorem c7_loop_semantics :
    (∀ (T : Type) [StateC T] (t : LoopTask T) (s : T),
      t.condition.execute s = .ok false → t.Execute s (.ok s) 0) ∧
    (∀ (T : Type) [StateC T] (t : LoopTask T) (s : T) (e : Error),
      t.condition.execute s = .error e → t.Execute s (.error e) 0) ∧
    (∀ (T : Type) [StateC T] (t : LoopTask T) (s : T) (e : Error),
      t.condition.execute s = .ok true → t.task.execute s = .error e →
      t.Execute s (.error e) 1) ∧
    (∀ (T : Type) [StateC T] (t : LoopTask T) (s s1 : T)
      (r : Except Error T) (k : Nat),
      t.condition.execute s = .ok true → t.task.execute s = .ok s1 →
      t.Execute s1 r k → t.Execute s r (k + 1)) ∧
    (∀ (T : Type) [StateC T] (t : LoopTask T) (s : T)
      (r r1 : Except Error T) (k k1 : Nat),
      t.Execute s r k → t.Execute s r1 k1 → r = r1 ∧ k = k1) ∧
    loopEx.Execute { num := 0 } (.ok { num := 3 }) 3 := by
  refine ⟨?_, ?_, ?_, ?_, ?_, ⟨4, by decide⟩⟩
  · intro T inst t s h
    exact ⟨1, by simp [runLoop, h]⟩
  · intro T inst t s e h
    exact ⟨1, by simp [runLoop, h]⟩
  · intro T inst t s e hc hb
    exact ⟨1, by simp [runLoop, hc, hb]⟩
  · intro T inst t s s1 r k hc hb hrec
    obtain ⟨fuel, hf⟩ := hrec
    exact ⟨fuel + 1, by simp [runLoop, hc, hb, hf]⟩
  · intro T inst t s r r1 k k1 h h1
    obtain ⟨f1, hf1⟩ := h
    obtain ⟨f2, hf2⟩ := h1
    have hpq := runLoop_det t.condition.execute t.task.execute f1 f2 s
      (r, k) (r1, k1) hf1 hf2
    exact ⟨congrArg Prod.fst hpq, congrArg Prod.snd hpq⟩

/-- Claim C7 witness: the false-condition clause applied at the concrete
loop `loopEx` and input `num = 5` (where `5 < 3` is false). -/
theorem c7_loop_witness :
    loopEx.Execute { num := 5 } (.ok { num := 5 }) 0 :=
  c7_loop_semantics.1 TestState loopEx { num := 5 } rfl

/-- Claim C8: sequential composition is associative: for all child tasks
`A`, `B`, `C` (each a deterministic state transformer, as every embedded
task is) and every input state `s`, `sequence([A, B, C])` and
`sequence([sequence([A, B]), C])` agree on `s`. -/
theorem c8_sequence_assoc (T : Type) [StateC T] (A B C : TaskD T) (s : T) :
    (sequence_task [A, B, C]).execute s =
      (sequence_task [(sequence_task [A, B]).asTask, C]).execute s := by
  cases hA : A.execute s with
  | error e =>
    simp [sequence_task, SequenceTask.execute, SequenceTask.asTask, runSeq, hA]
  | ok s1 =>
    cases hB : B.execute s1 with
    | error e =>
      simp [sequence_task, SequenceTask.execute, SequenceTask.asTask, runSeq,
        hA, hB]
    | ok s2 =>
      simp [sequence_task, SequenceTask.execute, SequenceTask.asTask, runSeq,
        hA, hB]

/-- Claim C9: `with_name` is a pure renaming for every combinator: the
renamed combinator's `name()` is the new name, and its execution behavior
(the `execute` result for Sequence, Or, Concurrent, If and Promise; the
big-step `Execute` relation for Loop) is unchanged on every input. -/
theorem c9_with_name_frame :
    (∀ (T : Type) [StateC T] (t : SequenceTask T) (n : String),
      (t.with_name n).nameOf = n ∧
      ∀ s : T, (t.with_name n).execute s = t.execute s) ∧
    (∀ (T : Type) [StateC T] (t : OrTask T) (n : String),
      (t.with_name n).nameOf = n ∧
      ∀ s : T, (t.with_name n).execute s = t.execute s) ∧
    (∀ (T : Type) [StateC T] (t : ConcurrentTask T) (n : String),
      (t.with_name n).nameOf = n ∧
      ∀ s : T, (t.with_name n).execute s = t.execute s) ∧
    (∀ (T : Type) [StateC T] (t : IfTask T) (n : String),
      (t.with_name n).nameOf = n ∧
      ∀ s : T, (t.with_name n).execute s = t.execute s) ∧
    (∀ (T : Type) [StateC T] (t : PromiseTask T) (n : String),
      (t.with_name n).nameOf = n ∧
      ∀ s : T, (t.with_name n).execute s = t.execute s) ∧
    (∀ (T : Type) [StateC T] (t : LoopTask T) (n : String),
      (t.with_name n).nameOf = n ∧
      ∀ (s : T) (r : Except Error T) (k : Nat),
        (t.with_name n).Execute s r k ↔ t.Execute s r k) := by
  refine ⟨?_, ?_, ?_, ?_, ?_, ?_⟩
  · intro T inst t n
    exact ⟨rfl, fun _ => rfl⟩
  · intro T inst t n
    exact ⟨rfl, fun _ => rfl⟩
  · intro T inst t n
    exact ⟨rfl, fun _ => rfl⟩
  · intro T inst t n
    exact ⟨rfl, fun _ => rfl⟩
  · intro T inst t n
    exact ⟨rfl, fun _ => rfl⟩
  · intro T inst t n
    exact ⟨rfl, fun _ _ _ => Iff.rfl⟩

/-- Claim C10: a Sequence with an empty child list is an identity for
execution: it returns `Ok` of its input state. -/
theorem c10_empty_sequence_identity (T : Type) [StateC T] (s : T) :
    (sequence_task ([] : List (TaskD T))).execute s = .ok s :=
  rfl

end Etaskflow
